import Mathlib

/-
Shallow embedding of `src/app.py` of the ParkingNLT repository: a minimal
Flask parking-reservation service.  Python library behaviour that the code
relies on (`datetime.time` comparison, `time.fromisoformat`, `json.loads`,
CSV appending, `strftime`) is embedded at the level of its documented
contract; the handlers themselves are translated line by line.  External
collaborators (the Stripe API, `check_password_hash`, the outcome of
`send_file`, the JSON parser) are passed in as explicit function arguments,
so every handler is a pure function of its inputs.
-/

set_option maxHeartbeats 1000000

namespace ParkingNLT

/-- Wall-clock time of day, as Python `datetime.time`: hour, minute, second
and microsecond.  Python compares `time` values lexicographically on this
quadruple. -/
structure TimeOfDay where
  hour : Nat
  minute : Nat
  second : Nat
  microsecond : Nat
deriving DecidableEq

/-- Python `time.__le__`: lexicographic comparison of the four components
(`start <= now` in `booking_allowed`). -/
def timeLe (a b : TimeOfDay) : Bool :=
  if a.hour ≠ b.hour then decide (a.hour < b.hour)
  else if a.minute ≠ b.minute then decide (a.minute < b.minute)
  else if a.second ≠ b.second then decide (a.second < b.second)
  else decide (a.microsecond ≤ b.microsecond)

/-- Value of one digit character, `none` on a non-digit. -/
def digitVal (c : Char) : Option Nat :=
  if '0' ≤ c ∧ c ≤ '9' then some (c.toNat - '0'.toNat) else none

/-- Two-digit decimal component of an ISO time string. -/
def twoDigits (a b : Char) : Option Nat :=
  match digitVal a, digitVal b with
  | some x, some y => some (10 * x + y)
  | _, _ => none

/-- Range-checked constructor mirroring `datetime.time(h, m, s)`: Python
raises `ValueError` outside 0-23 / 0-59 / 0-59. -/
def mkTime (h m s : Nat) : Option TimeOfDay :=
  if h ≤ 23 ∧ m ≤ 59 ∧ s ≤ 59 then some ⟨h, m, s, 0⟩ else none

/-- Python `time.fromisoformat` on the formats relevant to the blackout
configuration: `HH`, `HH:MM` and `HH:MM:SS` with two-digit zero-padded
components in valid ranges.  Any other string raises `ValueError`,
modelled as `none`. -/
def timeFromIso (s : String) : Option TimeOfDay :=
  match s.data with
  | [h1, h2] =>
      match twoDigits h1 h2 with
      | some h => mkTime h 0 0
      | none => none
  | [h1, h2, ':', m1, m2] =>
      match twoDigits h1 h2, twoDigits m1 m2 with
      | some h, some m => mkTime h m 0
      | _, _ => none
  | [h1, h2, ':', m1, m2, ':', s1, s2] =>
      match twoDigits h1 h2, twoDigits m1 m2, twoDigits s1 s2 with
      | some h, some m, some s => mkTime h m s
      | _, _, _ => none
  | _ => none

/-- A parsed JSON value, the result type of `json.loads`. -/
inductive JValue where
  | null
  | bool (b : Bool)
  | num (n : Int)
  | str (s : String)
  | arr (items : List JValue)
  | obj (fields : List (String × JValue))

/-- Python `w[k]` on a parsed JSON value: key lookup on a dict (later
duplicate keys win, as in `json.loads`), `none` when the key is missing
(`KeyError`) or the value is not a dict (`TypeError`); either exception is
caught by the bare `except` in `booking_allowed`. -/
def jGet (w : JValue) (k : String) : Option JValue :=
  match w with
  | JValue.obj fields => (fields.reverse.find? (fun p => p.1 == k)).map (fun p => p.2)
  | _ => none

/-- The parsed `start` bound of a window entry:
`time.fromisoformat(w["start"])`, `none` when the subscript or the parse
raises. -/
def windowStart (w : JValue) : Option TimeOfDay :=
  match jGet w "start" with
  | some (JValue.str s) => timeFromIso s
  | _ => none

/-- The parsed `end` bound of a window entry:
`time.fromisoformat(w["end"])`, `none` when the subscript or the parse
raises. -/
def windowEnd (w : JValue) : Option TimeOfDay :=
  match jGet w "end" with
  | some (JValue.str s) => timeFromIso s
  | _ => none

/-- Whether a window entry is well formed (both bounds present and
parseable) and satisfies `start <= now <= end`. -/
def windowContains (w : JValue) (now : TimeOfDay) : Bool :=
  match windowStart w, windowEnd w with
  | some st, some en => timeLe st now && timeLe now en
  | _, _ => false

/-- A window entry whose two bounds both parse. -/
def wellFormedWindow (w : JValue) : Bool :=
  (windowStart w).isSome && (windowEnd w).isSome

/-- The `for w in windows` loop of `booking_allowed`: returns `false` as
soon as a window contains `now`; any exception while processing an entry
(missing key, non-string value, bad time format) aborts the loop and is
caught by the bare `except`, yielding `true`. -/
def checkWindows (ws : List JValue) (now : TimeOfDay) : Bool :=
  match ws with
  | [] => true
  | w :: rest =>
      match windowStart w, windowEnd w with
      | some st, some en =>
          if timeLe st now && timeLe now en then false else checkWindows rest now
      | _, _ => true

/-- Shallow embedding of `booking_allowed` (src/app.py lines 33-66).
`raw` is the `BLACKOUT_WINDOWS` environment variable (`none` when unset),
`jsonLoads` models `json.loads` (`Except.error` when it raises), and `now`
is `datetime.now().time()`.  A falsy `raw` (absent or empty) short-circuits
to `true`; a top-level JSON value that is not a list makes the loop body
raise on its first element, which the bare `except` turns into `true`. -/
def booking_allowed (raw : Option String) (jsonLoads : String → Except Unit JValue)
    (now : TimeOfDay) : Bool :=
  match raw with
  | none => true
  | some s =>
      if s = "" then true
      else
        match jsonLoads s with
        | Except.error _ => true
        | Except.ok (JValue.arr ws) => checkWindows ws now
        | Except.ok _ => true

/-- A calendar date-time, as the parts of Python `datetime.now()` that the
handlers observe (`.time()` for the blackout check, `strftime` for the log
row). -/
structure DateTime where
  year : Nat
  month : Nat
  day : Nat
  hour : Nat
  minute : Nat
  second : Nat
  microsecond : Nat
deriving DecidableEq

/-- Python `datetime.time()`. -/
def DateTime.timeOfDay (d : DateTime) : TimeOfDay :=
  ⟨d.hour, d.minute, d.second, d.microsecond⟩

/-- The decimal digit character of `n mod 10`. -/
def digitChar10 (n : Nat) : Char := Char.ofNat (48 + n % 10)

/-- Zero-padded two-digit decimal field of `strftime` (`%m`, `%d`, `%H`,
`%M`, `%S`): the two decimal digits of the field value.  Python `datetime`
components are always in range; values at or above 100 cannot arise and
fall back to the plain decimal representation. -/
def pad2 (n : Nat) : String :=
  if n < 100 then String.mk [digitChar10 (n / 10), digitChar10 n] else toString n

/-- Zero-padded four-digit decimal field of `strftime` (`%Y`): the four
decimal digits of the year.  Python years are between 1 and 9999; values at
or above 10000 cannot arise and fall back to the plain decimal
representation. -/
def pad4 (n : Nat) : String :=
  if n < 10000 then
    String.mk [digitChar10 (n / 1000), digitChar10 (n / 100),
      digitChar10 (n / 10), digitChar10 n]
  else toString n

/-- Python `datetime.strftime("%Y-%m-%d %H:%M:%S")` (src/app.py line 105). -/
def strftimeTimestamp (d : DateTime) : String :=
  pad4 d.year ++ "-" ++ pad2 d.month ++ "-" ++ pad2 d.day ++ " " ++
  pad2 d.hour ++ ":" ++ pad2 d.minute ++ ":" ++ pad2 d.second

/-- The reservation log `reservations.csv`: `none` when the file does not
exist, `some rows` for an existing file holding the given CSV rows (an
existing file of size zero is `some []`). -/
abbrev LogFile := Option (List (List String))

/-- The CSV rows the log currently holds (a missing file reads as no
rows). -/
def fileRows (f : LogFile) : List (List String) := f.getD []

/-- The header guard of `create_checkout_session` (src/app.py line 101):
`not file_exists or os.stat(RESERVATION_FILE).st_size == 0`. -/
def headerNeeded (f : LogFile) : Bool :=
  match f with
  | none => true
  | some rows => rows.isEmpty

/-- The fixed header row written on first use (src/app.py line 102). -/
def headerRow : List String := ["Make", "License Plate", "Date and Time"]

/-- One Stripe line item as built by the handler. -/
structure LineItem where
  currency : String
  product_name : String
  unit_amount : Nat
  quantity : Nat
deriving DecidableEq

/-- The Stripe checkout-session request built by the handler
(src/app.py lines 109-124). -/
structure CheckoutRequest where
  payment_method_types : List String
  line_items : List LineItem
  mode : String
  success_url : String
  cancel_url : String
deriving DecidableEq

/-- The request passed to `stripe.checkout.Session.create`:
`url_for(..., _external=True)` yields the service's base URL plus the
route's path. -/
def buildCheckoutRequest (baseUrl car_model license_plate : String) : CheckoutRequest :=
  { payment_method_types := ["card"]
    line_items := [{ currency := "usd"
                     product_name := "Parking for " ++ car_model ++ " (" ++ license_plate ++ ")"
                     unit_amount := 1000
                     quantity := 1 }]
    mode := "payment"
    success_url := baseUrl ++ "/success" ++ "?session_id={CHECKOUT_SESSION_ID}"
    cancel_url := baseUrl ++ "/cancel" }

/-- A handler's outcome as observed by the HTTP client.  A Flask handler
returning a plain string responds with status 200. -/
inductive HttpResponse where
  | text (body : String) (status : Nat)
  | redirect (url : String) (status : Nat)
  | challenge (body : String) (status : Nat) (headerName : String) (headerValue : String)
  | fileDownload (rows : List (List String))
deriving DecidableEq

/-- The HTTP status code of a response. -/
def HttpResponse.statusOf : HttpResponse → Nat
  | HttpResponse.text _ s => s
  | HttpResponse.redirect _ s => s
  | HttpResponse.challenge _ s _ _ => s
  | HttpResponse.fileDownload _ => 200

/-- Python truthiness of `request.form.get(...)`: the field is falsy when
absent (`None`) or the empty string (src/app.py line 90). -/
def isBlank : Option String → Bool
  | none => true
  | some s => s == ""

/-- Shallow embedding of the `/create-checkout-session` handler
(src/app.py lines 78-129).  Inputs: the blackout configuration and JSON
parser feeding `booking_allowed`, the current date-time, the two form
fields (`none` when missing from the form), the log file state, the Stripe
collaborator (`Except.error` carries `str(e)` of a raised exception,
`Except.ok` the session URL) and the service's base URL.  Output: the
response and the new log state.  The handler checks the blackout first,
then validates the fields, then appends to the CSV (header first when the
file is missing or empty), and only then calls Stripe. -/
def create_checkout_session (blackoutRaw : Option String)
    (jsonLoads : String → Except Unit JValue) (now : DateTime)
    (car_model license_plate : Option String) (log : LogFile)
    (stripeCreate : CheckoutRequest → Except String String)
    (baseUrl : String) : HttpResponse × LogFile :=
  if booking_allowed blackoutRaw jsonLoads (DateTime.timeOfDay now) = false then
    (HttpResponse.text "Parking is unavailable at this time." 403, log)
  else if isBlank car_model || isBlank license_plate then
    (HttpResponse.text "Invalid input. Please enter both the car model and license plate." 400, log)
  else
    let cm := car_model.getD ""
    let lp := license_plate.getD ""
    let newLog : LogFile :=
      some (fileRows log ++ (if headerNeeded log then [headerRow] else []) ++
            [[cm, lp, strftimeTimestamp now]])
    match stripeCreate (buildCheckoutRequest baseUrl cm lp) with
    | Except.ok url => (HttpResponse.redirect url 303, newLog)
    | Except.error e => (HttpResponse.text e 200, newLog)

/-- The credentials of an HTTP Basic `Authorization` header. -/
structure AuthData where
  username : String
  password : String
deriving DecidableEq

/-- Shallow embedding of the `/admin/reservations` handler
(src/app.py lines 143-163).  `auth` is `request.authorization`,
`checkPassword` models `check_password_hash(ADMIN_PASSWORD_HASH, ·)`, and
`sendFileResult` is the outcome of `send_file(RESERVATION_FILE, ...)`
(`Except.error` carries `str(e)` of a raised I/O exception).  The handler
never writes the log, so the log state passes through unchanged. -/
def admin_view_reservations (auth : Option AuthData) (adminUsername : String)
    (checkPassword : String → Bool)
    (sendFileResult : Except String (List (List String)))
    (log : LogFile) : HttpResponse × LogFile :=
  match auth with
  | none =>
      (HttpResponse.challenge "Login required" 401
        "WWW-Authenticate" "Basic realm=\"Login Required\"", log)
  | some a =>
      if a.username != adminUsername || !(checkPassword a.password) then
        (HttpResponse.challenge "Could not verify login" 401
          "WWW-Authenticate" "Basic realm=\"Login Required\"", log)
      else
        match sendFileResult with
        | Except.ok rows => (HttpResponse.fileDownload rows, log)
        | Except.error e => (HttpResponse.text e 200, log)

/-- Parsed form of the documented example window covering the whole day. -/
def allDayWindow : JValue :=
  JValue.obj [("start", JValue.str "00:00"), ("end", JValue.str "23:59")]

/-- A malformed window entry: neither a `start` nor an `end` key. -/
def badWindow : JValue := JValue.obj [("bad", JValue.str "x")]

/-- Parsed configuration holding the single all-day window. -/
def cfgAllDay : JValue := JValue.arr [allDayWindow]

/-- Parsed configuration: a well-formed all-day window followed by a
malformed entry. -/
def cfgMixed : JValue := JValue.arr [allDayWindow, badWindow]

/-- `json.loads` as it behaves on `rawAllDay`. -/
def jlAllDay : String → Except Unit JValue := fun _ => Except.ok cfgAllDay

/-- `json.loads` as it behaves on `rawMixed`. -/
def jlMixed : String → Except Unit JValue := fun _ => Except.ok cfgMixed

/-- The JSON text parsing to `cfgAllDay`. -/
def rawAllDay : String := "[\x7b\"start\": \"00:00\", \"end\": \"23:59\"\x7d]"

/-- The JSON text parsing to `cfgMixed`. -/
def rawMixed : String :=
  "[\x7b\"start\": \"00:00\", \"end\": \"23:59\"\x7d, \x7b\"bad\": \"x\"\x7d]"

/-- Noon, as a time of day. -/
def noonTime : TimeOfDay := ⟨12, 0, 0, 0⟩

/-- A concrete date-time at noon. -/
def noonDT : DateTime := ⟨2026, 10, 12, 12, 0, 0, 0⟩

theorem timeLe_refl (a : TimeOfDay) : timeLe a a = true := by
  simp [timeLe]

theorem timeLe_antisymm {a b : TimeOfDay} (h1 : timeLe a b = true)
    (h2 : timeLe b a = true) : a = b := by
  obtain ⟨ah, am, as, au⟩ := a
  obtain ⟨bh, bm, bs, bu⟩ := b
  simp only [timeLe, TimeOfDay.mk.injEq] at h1 h2 ⊢
  split_ifs at h1 h2 <;> simp_all <;> omega

theorem checkWindows_false_exists {ws : List JValue} {now : TimeOfDay}
    (h : checkWindows ws now = false) :
    ∃ w ∈ ws, windowContains w now = true := by
  induction ws with
  | nil => simp [checkWindows] at h
  | cons w rest ih =>
      rw [checkWindows] at h
      cases hst : windowStart w with
      | none => rw [hst] at h; simp at h
      | some st =>
          rw [hst] at h
          cases hen : windowEnd w with
          | none => rw [hen] at h; simp at h
          | some en =>
              rw [hen] at h
              have h' : (if (timeLe st now && timeLe now en) = true then false
                  else checkWindows rest now) = false := h
              by_cases hc : (timeLe st now && timeLe now en) = true
              · exact ⟨w, List.mem_cons_self w rest, by
                  rw [windowContains, hst, hen]; exact hc⟩
              · rw [if_neg hc] at h'
                obtain ⟨w', hmem, hw'⟩ := ih h'
                exact ⟨w', List.mem_cons_of_mem w hmem, hw'⟩

theorem checkWindows_false_iff {ws : List JValue} {now : TimeOfDay}
    (hwf : ∀ w ∈ ws, wellFormedWindow w = true) :
    checkWindows ws now = false ↔ ∃ w ∈ ws, windowContains w now = true := by
  constructor
  · exact checkWindows_false_exists
  · intro ⟨w, hmem, hw⟩
    induction ws with
    | nil => simp at hmem
    | cons w0 rest ih =>
        have hwf0 := hwf w0 (List.mem_cons_self w0 rest)
        rw [wellFormedWindow, Bool.and_eq_true, Option.isSome_iff_exists,
          Option.isSome_iff_exists] at hwf0
        obtain ⟨⟨st, hst⟩, ⟨en, hen⟩⟩ := hwf0
        rw [checkWindows, hst, hen]
        show (if (timeLe st now && timeLe now en) = true then false
            else checkWindows rest now) = false
        by_cases hc : (timeLe st now && timeLe now en) = true
        · rw [if_pos hc]
        · rw [if_neg hc]
          rcases List.mem_cons.mp hmem with heq | hmem'
          · subst heq
            rw [windowContains, hst, hen] at hw
            exact absurd hw hc
          · exact ih (fun x hx => hwf x (List.mem_cons_of_mem w0 hx)) hmem'

theorem booking_allowed_false_exists {raw : Option String}
    {jl : String → Except Unit JValue} {now : TimeOfDay}
    (h : booking_allowed raw jl now = false) :
    ∃ s, raw = some s ∧ s ≠ "" ∧
      ∃ ws, jl s = Except.ok (JValue.arr ws) ∧
        ∃ w ∈ ws, windowContains w now = true := by
  cases raw with
  | none => simp [booking_allowed] at h
  | some s =>
      rw [booking_allowed] at h
      by_cases hs : s = ""
      · rw [if_pos hs] at h; simp at h
      · rw [if_neg hs] at h
        cases hjl : jl s with
        | error e => rw [hjl] at h; simp at h
        | ok v =>
            rw [hjl] at h
            cases v with
            | arr ws =>
                exact ⟨s, rfl, hs, ws, by rw [hjl], checkWindows_false_exists h⟩
            | null => simp at h
            | bool b => simp at h
            | num n => simp at h
            | str t => simp at h
            | obj fields => simp at h

theorem booking_allowed_wellformed_iff {s : String}
    {jl : String → Except Unit JValue} {ws : List JValue} {now : TimeOfDay}
    (hs : s ≠ "") (hjl : jl s = Except.ok (JValue.arr ws))
    (hwf : ∀ w ∈ ws, wellFormedWindow w = true) :
    booking_allowed (some s) jl now = false ↔
      ∃ w ∈ ws, windowContains w now = true := by
  rw [booking_allowed, if_neg hs, hjl]
  exact checkWindows_false_iff hwf

/-- C1 counterexample: during an active blackout window (the all-day window
of `rawAllDay`), a submission whose `car_model` is missing receives the 403
blackout response, not the 400 validation error — the admission check runs
before field-presence validation, so the validation error is not returned
regardless of blackout state. -/
theorem C1_counterexample :
    (create_checkout_session (some rawAllDay) jlAllDay noonDT none (some "ABC123")
        (some []) (fun _ => Except.error "No API key provided")
        "http://localhost:5000").1
      = HttpResponse.text "Parking is unavailable at this time." 403 := by
  decide

/-- C1 amended: the handler validates field presence only after the
admission check.  For a submission with an empty or missing `car_model` or
`license_plate`: when no blackout window is active it receives the 400
validation error with the log unchanged, and when a blackout is active it
receives the 403 blackout response with the log unchanged. -/
theorem C1_validation_after_admission (raw : Option String)
    (jl : String → Except Unit JValue) (now : DateTime)
    (car_model license_plate : Option String) (log : LogFile)
    (stripeCreate : CheckoutRequest → Except String String) (baseUrl : String)
    (hblank : (isBlank car_model || isBlank license_plate) = true) :
    (booking_allowed raw jl (DateTime.timeOfDay now) = true →
      create_checkout_session raw jl now car_model license_plate log stripeCreate baseUrl
        = (HttpResponse.text
            "Invalid input. Please enter both the car model and license plate." 400, log)) ∧
    (booking_allowed raw jl (DateTime.timeOfDay now) = false →
      create_checkout_session raw jl now car_model license_plate log stripeCreate baseUrl
        = (HttpResponse.text "Parking is unavailable at this time." 403, log)) := by
  constructor
  · intro hal
    rw [create_checkout_session, if_neg (by simp [hal]), if_pos hblank]
  · intro hal
    rw [create_checkout_session, if_pos hal]

/-- C1 witness: concrete run of the amended theorem with no blackout
configured and an empty `car_model`. -/
theorem C1_validation_after_admission_witness :
    (isBlank (some "") || isBlank (some "ABC123")) = true ∧
    ((booking_allowed none jlAllDay (DateTime.timeOfDay noonDT) = true →
      create_checkout_session none jlAllDay noonDT (some "") (some "ABC123") (some [])
          (fun _ => Except.error "No API key provided") "http://localhost:5000"
        = (HttpResponse.text
            "Invalid input. Please enter both the car model and license plate." 400,
           some [])) ∧
     (booking_allowed none jlAllDay (DateTime.timeOfDay noonDT) = false →
      create_checkout_session none jlAllDay noonDT (some "") (some "ABC123") (some [])
          (fun _ => Except.error "No API key provided") "http://localhost:5000"
        = (HttpResponse.text "Parking is unavailable at this time." 403, some []))) :=
  ⟨by decide,
   C1_validation_after_admission none jlAllDay noonDT (some "") (some "ABC123")
     (some []) (fun _ => Except.error "No API key provided") "http://localhost:5000"
     (by decide)⟩

/-- C2 counterexample: the configuration `rawMixed` is malformed (its second
entry `badWindow` has neither a `start` nor an `end` key), yet at noon the
admission check returns `false` (admission denied), because the well-formed
all-day window preceding the malformed entry matches before the exception is
reached. -/
theorem C2_counterexample :
    booking_allowed (some rawMixed) jlMixed noonTime = false ∧
    windowStart badWindow = none ∧ windowEnd badWindow = none ∧
    jlMixed rawMixed = Except.ok (JValue.arr [allDayWindow, badWindow]) :=
  ⟨by decide, by decide, by decide, rfl⟩

/-- C2 amended: the check fails open except when a well-formed window
earlier in the list already matched: whenever the admission check denies
admission, the raw configuration was a non-empty string whose JSON parse
succeeded as a list containing a window with parseable `start` and `end`
bounds that contains the current time.  In every run where an exception
fires (invalid JSON, missing key, bad time format) before any window
matches, the check returns `true`. -/
theorem C2_fail_open (raw : Option String) (jl : String → Except Unit JValue)
    (now : TimeOfDay) (h : booking_allowed raw jl now = false) :
    ∃ s, raw = some s ∧ s ≠ "" ∧
      ∃ ws, jl s = Except.ok (JValue.arr ws) ∧
        ∃ w ∈ ws, windowContains w now = true :=
  booking_allowed_false_exists h

/-- C2 witness: concrete run of the amended theorem on `rawMixed` at noon. -/
theorem C2_fail_open_witness :
    booking_allowed (some rawMixed) jlMixed noonTime = false ∧
    (∃ s, (some rawMixed : Option String) = some s ∧ s ≠ "" ∧
      ∃ ws, jlMixed s = Except.ok (JValue.arr ws) ∧
        ∃ w ∈ ws, windowContains w noonTime = true) :=
  ⟨by decide, C2_fail_open (some rawMixed) jlMixed noonTime (by decide)⟩

/-- C3: for a well-formed configuration (non-empty string whose JSON parse
yields a list of windows each with parseable `start` and `end`), admission
is denied if and only if some window satisfies `start <= now <= end`, both
bounds inclusive; and a degenerate window whose two bounds are the same
instant contains `now` exactly when `now` equals that instant. -/
theorem C3_wellformed_denial (s : String) (jl : String → Except Unit JValue)
    (ws : List JValue) (now : TimeOfDay)
    (hs : s ≠ "") (hjl : jl s = Except.ok (JValue.arr ws))
    (hwf : ∀ w ∈ ws, wellFormedWindow w = true) :
    (booking_allowed (some s) jl now = false ↔
      ∃ w ∈ ws, windowContains w now = true) ∧
    (∀ w ∈ ws, ∀ t : TimeOfDay, windowStart w = some t → windowEnd w = some t →
      (windowContains w now = true ↔ now = t)) := by
  refine ⟨booking_allowed_wellformed_iff hs hjl hwf, ?_⟩
  intro w _ t hst hen
  rw [windowContains, hst, hen]
  show (timeLe t now && timeLe now t) = true ↔ now = t
  constructor
  · intro hc
    rw [Bool.and_eq_true] at hc
    exact timeLe_antisymm hc.2 hc.1
  · intro h
    subst h
    simp [timeLe_refl]

/-- C3 witness: concrete run on the all-day window at noon. -/
theorem C3_wellformed_denial_witness :
    rawAllDay ≠ "" ∧
    jlAllDay rawAllDay = Except.ok (JValue.arr [allDayWindow]) ∧
    (∀ w ∈ [allDayWindow], wellFormedWindow w = true) ∧
    ((booking_allowed (some rawAllDay) jlAllDay noonTime = false ↔
        ∃ w ∈ [allDayWindow], windowContains w noonTime = true) ∧
     (∀ w ∈ [allDayWindow], ∀ t : TimeOfDay,
        windowStart w = some t → windowEnd w = some t →
        (windowContains w noonTime = true ↔ noonTime = t))) :=
  ⟨by decide, rfl, by decide,
   C3_wellformed_denial rawAllDay jlAllDay [allDayWindow] noonTime
     (by decide) rfl (by decide)⟩

/-- C4: when the blackout configuration is absent (`BLACKOUT_WINDOWS`
unset) or the empty string, the admission check returns `true` for every
JSON parser behaviour and every current time. -/
theorem C4_absent_or_empty_allows (jl : String → Except Unit JValue)
    (now : TimeOfDay) :
    booking_allowed none jl now = true ∧
    booking_allowed (some "") jl now = true :=
  ⟨rfl, by simp [booking_allowed]⟩

theorem digitChar10_isDigit (n : Nat) : (digitChar10 n).isDigit = true := by
  have h : n % 10 < 10 := Nat.mod_lt _ (by norm_num)
  have haux : ∀ k, k < 10 → (Char.ofNat (48 + k)).isDigit = true := by decide
  exact haux (n % 10) h

theorem pad2_spec (n : Nat) (h : n < 100) :
    (pad2 n).length = 2 ∧ ∀ c ∈ (pad2 n).data, c.isDigit = true := by
  rw [pad2, if_pos h]
  refine ⟨rfl, fun c hc => ?_⟩
  have hc' : c ∈ [digitChar10 (n / 10), digitChar10 n] := hc
  simp only [List.mem_cons, List.not_mem_nil, or_false] at hc'
  rcases hc' with rfl | rfl <;> exact digitChar10_isDigit _

theorem pad4_spec (n : Nat) (h : n < 10000) :
    (pad4 n).length = 4 ∧ ∀ c ∈ (pad4 n).data, c.isDigit = true := by
  rw [pad4, if_pos h]
  refine ⟨rfl, fun c hc => ?_⟩
  have hc' : c ∈ [digitChar10 (n / 1000), digitChar10 (n / 100),
      digitChar10 (n / 10), digitChar10 n] := hc
  simp only [List.mem_cons, List.not_mem_nil, or_false] at hc'
  rcases hc' with rfl | rfl | rfl | rfl <;> exact digitChar10_isDigit _

theorem headerNeeded_iff (log : LogFile) :
    headerNeeded log = true ↔ log = none ∨ log = some [] := by
  cases log with
  | none => simp [headerNeeded]
  | some rows => cases rows <;> simp [headerNeeded]

theorem create_main_branch (raw : Option String)
    (jl : String → Except Unit JValue) (now : DateTime)
    (cm lp : Option String) (log : LogFile)
    (stripeCreate : CheckoutRequest → Except String String) (baseUrl : String)
    (hal : booking_allowed raw jl (DateTime.timeOfDay now) = true)
    (hcm : isBlank cm = false) (hlp : isBlank lp = false) :
    create_checkout_session raw jl now cm lp log stripeCreate baseUrl
      = (match stripeCreate (buildCheckoutRequest baseUrl (cm.getD "") (lp.getD "")) with
         | Except.ok url => (HttpResponse.redirect url 303,
             some (fileRows log ++ (if headerNeeded log then [headerRow] else []) ++
               [[cm.getD "", lp.getD "", strftimeTimestamp now]]))
         | Except.error e => (HttpResponse.text e 200,
             some (fileRows log ++ (if headerNeeded log then [headerRow] else []) ++
               [[cm.getD "", lp.getD "", strftimeTimestamp now]]))) := by
  rw [create_checkout_session, if_neg (by simp [hal]), if_neg (by simp [hcm, hlp])]

theorem create_log_after_success (raw : Option String)
    (jl : String → Except Unit JValue) (now : DateTime)
    (cm lp : Option String) (log : LogFile)
    (stripeCreate : CheckoutRequest → Except String String) (baseUrl : String)
    (hal : booking_allowed raw jl (DateTime.timeOfDay now) = true)
    (hcm : isBlank cm = false) (hlp : isBlank lp = false) :
    (create_checkout_session raw jl now cm lp log stripeCreate baseUrl).2
      = some (fileRows log ++ (if headerNeeded log then [headerRow] else []) ++
          [[cm.getD "", lp.getD "", strftimeTimestamp now]]) := by
  rw [create_main_branch raw jl now cm lp log stripeCreate baseUrl hal hcm hlp]
  cases hst : stripeCreate (buildCheckoutRequest baseUrl (cm.getD "") (lp.getD "")) <;>
    rfl

theorem admin_eq_some (a : AuthData) (adminU : String) (chk : String → Bool)
    (sfr : Except String (List (List String))) (log : LogFile) :
    admin_view_reservations (some a) adminU chk sfr log
      = if a.username != adminU || !(chk a.password) then
          (HttpResponse.challenge "Could not verify login" 401
            "WWW-Authenticate" "Basic realm=\"Login Required\"", log)
        else
          match sfr with
          | Except.ok rows => (HttpResponse.fileDownload rows, log)
          | Except.error e => (HttpResponse.text e 200, log) := rfl

theorem admin_log_unchanged (auth : Option AuthData) (adminU : String)
    (chk : String → Bool) (sfr : Except String (List (List String)))
    (log : LogFile) :
    (admin_view_reservations auth adminU chk sfr log).2 = log := by
  cases auth with
  | none => rfl
  | some a =>
      rw [admin_eq_some]
      by_cases hcond : (a.username != adminU || !(chk a.password)) = true
      · rw [if_pos hcond]
      · rw [if_neg hcond]
        cases sfr <;> rfl

/-- C5: one reservation row is appended exactly when admission was allowed
and both fields were non-blank; the handler only ever appends to the
existing rows, and the admin handler never changes the log. -/
theorem C5_append_iff (raw : Option String) (jl : String → Except Unit JValue)
    (now : DateTime) (cm lp : Option String) (log : LogFile)
    (stripeCreate : CheckoutRequest → Except String String) (baseUrl : String) :
    (∃ t, fileRows (create_checkout_session raw jl now cm lp log stripeCreate baseUrl).2
        = fileRows log ++ t) ∧
    ((booking_allowed raw jl (DateTime.timeOfDay now) = true ∧
        isBlank cm = false ∧ isBlank lp = false) →
      fileRows (create_checkout_session raw jl now cm lp log stripeCreate baseUrl).2
        = fileRows log ++ (if headerNeeded log then [headerRow] else []) ++
          [[cm.getD "", lp.getD "", strftimeTimestamp now]]) ∧
    (¬(booking_allowed raw jl (DateTime.timeOfDay now) = true ∧
        isBlank cm = false ∧ isBlank lp = false) →
      (create_checkout_session raw jl now cm lp log stripeCreate baseUrl).2 = log) ∧
    (∀ auth adminU chk sfr alog,
      (admin_view_reservations auth adminU chk sfr alog).2 = alog) := by
  have hmain : (booking_allowed raw jl (DateTime.timeOfDay now) = true ∧
      isBlank cm = false ∧ isBlank lp = false) →
      fileRows (create_checkout_session raw jl now cm lp log stripeCreate baseUrl).2
        = fileRows log ++ (if headerNeeded log then [headerRow] else []) ++
          [[cm.getD "", lp.getD "", strftimeTimestamp now]] := by
    intro ⟨hal, hcm, hlp⟩
    rw [create_log_after_success raw jl now cm lp log stripeCreate baseUrl hal hcm hlp]
    rfl
  have hskip : ¬(booking_allowed raw jl (DateTime.timeOfDay now) = true ∧
      isBlank cm = false ∧ isBlank lp = false) →
      (create_checkout_session raw jl now cm lp log stripeCreate baseUrl).2 = log := by
    intro hn
    cases hb : booking_allowed raw jl (DateTime.timeOfDay now) with
    | false => rw [create_checkout_session, if_pos hb]
    | true =>
        have hor : (isBlank cm || isBlank lp) = true := by
          cases hc : isBlank cm with
          | true => rfl
          | false =>
              cases hl : isBlank lp with
              | true => rfl
              | false => exact absurd ⟨hb, hc, hl⟩ hn
        rw [create_checkout_session, if_neg (by simp [hb]), if_pos hor]
  refine ⟨?_, hmain, hskip, fun auth adminU chk sfr alog =>
    admin_log_unchanged auth adminU chk sfr alog⟩
  by_cases hc : booking_allowed raw jl (DateTime.timeOfDay now) = true ∧
      isBlank cm = false ∧ isBlank lp = false
  · exact ⟨(if headerNeeded log then [headerRow] else []) ++
      [[cm.getD "", lp.getD "", strftimeTimestamp now]],
      by rw [hmain hc, List.append_assoc]⟩
  · exact ⟨[], by rw [hskip hc, List.append_nil]⟩

/-- C5 witness: a concrete admitted, valid submission on an empty log
appends the header and exactly one reservation row. -/
theorem C5_append_iff_witness :
    fileRows (create_checkout_session none jlAllDay noonDT (some "Honda Civic")
        (some "ABC123") (some []) (fun _ => Except.ok "https://pay.example/s")
        "http://localhost:5000").2
      = fileRows (some ([] : List (List String))) ++
        (if headerNeeded (some ([] : List (List String))) then [headerRow] else []) ++
        [[(some "Honda Civic").getD "", (some "ABC123").getD "",
          strftimeTimestamp noonDT]] :=
  (C5_append_iff none jlAllDay noonDT (some "Honda Civic") (some "ABC123") (some [])
      (fun _ => Except.ok "https://pay.example/s") "http://localhost:5000").2.1
    ⟨by decide, by decide, by decide⟩

/-- C6: for an admitted, valid submission the handler appends a header row
with the fixed column names exactly when the log file does not exist or is
empty, followed by one data row of exactly the three fields `car_model`,
`license_plate` and the timestamp; the timestamp has shape
`YYYY-MM-DD HH:MM:SS` (all-digit components of widths 4, 2, 2, 2, 2, 2 with
the fixed separators). -/
theorem C6_header_and_row (raw : Option String)
    (jl : String → Except Unit JValue) (now : DateTime)
    (cm lp : Option String) (log : LogFile)
    (stripeCreate : CheckoutRequest → Except String String) (baseUrl : String)
    (hal : booking_allowed raw jl (DateTime.timeOfDay now) = true)
    (hcm : isBlank cm = false) (hlp : isBlank lp = false)
    (hy : now.year ≤ 9999) (hmo : now.month ≤ 12) (hd : now.day ≤ 31)
    (hh : now.hour ≤ 23) (hmi : now.minute ≤ 59) (hsec : now.second ≤ 59) :
    (fileRows (create_checkout_session raw jl now cm lp log stripeCreate baseUrl).2
      = fileRows log ++ (if headerNeeded log then [headerRow] else []) ++
        [[cm.getD "", lp.getD "", strftimeTimestamp now]]) ∧
    (headerNeeded log = true ↔ log = none ∨ log = some []) ∧
    (headerRow = ["Make", "License Plate", "Date and Time"]) ∧
    (∃ ys ms ds hs2 mis ss : String,
      strftimeTimestamp now
        = ys ++ "-" ++ ms ++ "-" ++ ds ++ " " ++ hs2 ++ ":" ++ mis ++ ":" ++ ss ∧
      ys.length = 4 ∧ ms.length = 2 ∧ ds.length = 2 ∧
      hs2.length = 2 ∧ mis.length = 2 ∧ ss.length = 2 ∧
      (∀ c ∈ ys.data, c.isDigit = true) ∧ (∀ c ∈ ms.data, c.isDigit = true) ∧
      (∀ c ∈ ds.data, c.isDigit = true) ∧ (∀ c ∈ hs2.data, c.isDigit = true) ∧
      (∀ c ∈ mis.data, c.isDigit = true) ∧ (∀ c ∈ ss.data, c.isDigit = true)) := by
  refine ⟨?_, headerNeeded_iff log, rfl, ?_⟩
  · rw [create_log_after_success raw jl now cm lp log stripeCreate baseUrl hal hcm hlp]
    rfl
  · refine ⟨pad4 now.year, pad2 now.month, pad2 now.day, pad2 now.hour,
      pad2 now.minute, pad2 now.second, rfl, ?_⟩
    obtain ⟨hy1, hy2⟩ := pad4_spec now.year (by omega)
    obtain ⟨hmo1, hmo2⟩ := pad2_spec now.month (by omega)
    obtain ⟨hd1, hd2⟩ := pad2_spec now.day (by omega)
    obtain ⟨hh1, hh2⟩ := pad2_spec now.hour (by omega)
    obtain ⟨hmi1, hmi2⟩ := pad2_spec now.minute (by omega)
    obtain ⟨hs1, hs2'⟩ := pad2_spec now.second (by omega)
    exact ⟨hy1, hmo1, hd1, hh1, hmi1, hs1, hy2, hmo2, hd2, hh2, hmi2, hs2'⟩

/-- C6 witness: concrete admitted submission on a missing log file. -/
theorem C6_header_and_row_witness :
    (fileRows (create_checkout_session none jlAllDay noonDT (some "Honda Civic")
        (some "ABC123") none (fun _ => Except.ok "https://pay.example/s")
        "http://localhost:5000").2
      = fileRows (none : LogFile) ++
        (if headerNeeded (none : LogFile) then [headerRow] else []) ++
        [[(some "Honda Civic").getD "", (some "ABC123").getD "",
          strftimeTimestamp noonDT]]) ∧
    (headerNeeded (none : LogFile) = true ↔
      (none : LogFile) = none ∨ (none : LogFile) = some []) ∧
    (headerRow = ["Make", "License Plate", "Date and Time"]) ∧
    (∃ ys ms ds hs2 mis ss : String,
      strftimeTimestamp noonDT
        = ys ++ "-" ++ ms ++ "-" ++ ds ++ " " ++ hs2 ++ ":" ++ mis ++ ":" ++ ss ∧
      ys.length = 4 ∧ ms.length = 2 ∧ ds.length = 2 ∧
      hs2.length = 2 ∧ mis.length = 2 ∧ ss.length = 2 ∧
      (∀ c ∈ ys.data, c.isDigit = true) ∧ (∀ c ∈ ms.data, c.isDigit = true) ∧
      (∀ c ∈ ds.data, c.isDigit = true) ∧ (∀ c ∈ hs2.data, c.isDigit = true) ∧
      (∀ c ∈ mis.data, c.isDigit = true) ∧ (∀ c ∈ ss.data, c.isDigit = true)) :=
  C6_header_and_row none jlAllDay noonDT (some "Honda Civic") (some "ABC123")
    none (fun _ => Except.ok "https://pay.example/s") "http://localhost:5000"
    (by decide) (by decide) (by decide) (by decide) (by decide) (by decide)
    (by decide) (by decide) (by decide)

/-- C7: the checkout request built for Stripe has a single line item of
1000 minor units of USD with quantity 1 whose description contains both the
car model and the license plate, and its redirect targets are the service's
base URL plus `/success` (with the session-id placeholder) and `/cancel`;
the handler interacts with the Stripe collaborator only through exactly
this request. -/
theorem C7_checkout_request (baseUrl cm lp : String) :
    (buildCheckoutRequest baseUrl cm lp).line_items.length = 1 ∧
    (∀ li ∈ (buildCheckoutRequest baseUrl cm lp).line_items,
      li.unit_amount = 1000 ∧ li.currency = "usd" ∧ li.quantity = 1 ∧
      ∃ pre mid post, li.product_name = pre ++ cm ++ mid ++ lp ++ post) ∧
    (buildCheckoutRequest baseUrl cm lp).success_url
      = baseUrl ++ "/success" ++ "?session_id={CHECKOUT_SESSION_ID}" ∧
    (buildCheckoutRequest baseUrl cm lp).cancel_url = baseUrl ++ "/cancel" ∧
    (∀ raw jl now log stripeA stripeB,
      stripeA (buildCheckoutRequest baseUrl cm lp)
        = stripeB (buildCheckoutRequest baseUrl cm lp) →
      create_checkout_session raw jl now (some cm) (some lp) log stripeA baseUrl
        = create_checkout_session raw jl now (some cm) (some lp) log stripeB baseUrl) := by
  refine ⟨rfl, ?_, rfl, rfl, ?_⟩
  · intro li hli
    have hli' : li ∈ [(⟨"usd", "Parking for " ++ cm ++ " (" ++ lp ++ ")",
        1000, 1⟩ : LineItem)] := hli
    simp only [List.mem_singleton] at hli'
    subst hli'
    exact ⟨rfl, rfl, rfl, "Parking for ", " (", ")", rfl⟩
  · intro raw jl now log sA sB hsame
    rw [create_checkout_session, create_checkout_session]
    by_cases hb : booking_allowed raw jl (DateTime.timeOfDay now) = false
    · rw [if_pos hb, if_pos hb]
    · rw [if_neg hb, if_neg hb]
      by_cases hblank : (isBlank (some cm) || isBlank (some lp)) = true
      · rw [if_pos hblank, if_pos hblank]
      · rw [if_neg hblank, if_neg hblank]
        simp only [Option.getD_some]
        rw [hsame]

/-- C7 witness: two Stripe collaborators agreeing on the built request give
the same concrete handler outcome. -/
theorem C7_checkout_request_witness :
    create_checkout_session none jlAllDay noonDT (some "Honda Civic") (some "ABC123")
        (some []) (fun _ => Except.ok "https://pay.example/a") "http://localhost:5000"
      = create_checkout_session none jlAllDay noonDT (some "Honda Civic") (some "ABC123")
        (some [])
        (fun r => if r.mode == "payment" then Except.ok "https://pay.example/a"
          else Except.error "bad request") "http://localhost:5000" :=
  (C7_checkout_request "http://localhost:5000" "Honda Civic" "ABC123").2.2.2.2
    none jlAllDay noonDT (some [])
    (fun _ => Except.ok "https://pay.example/a")
    (fun r => if r.mode == "payment" then Except.ok "https://pay.example/a"
      else Except.error "bad request") rfl

/-- C8: the admin endpoint answers 401 with the Basic-auth challenge header
when credentials are absent, answers the same 401 challenge when the
username differs from the configured one or the password fails hash
verification, does not answer 401 when both checks pass, and never changes
the log. -/
theorem C8_admin_auth (auth : Option AuthData) (adminU : String)
    (chk : String → Bool) (sfr : Except String (List (List String)))
    (log : LogFile) :
    ((admin_view_reservations auth adminU chk sfr log).2 = log) ∧
    (auth = none →
      (admin_view_reservations auth adminU chk sfr log).1
        = HttpResponse.challenge "Login required" 401
            "WWW-Authenticate" "Basic realm=\"Login Required\"") ∧
    (∀ a, auth = some a → (a.username ≠ adminU ∨ chk a.password = false) →
      (admin_view_reservations auth adminU chk sfr log).1
        = HttpResponse.challenge "Could not verify login" 401
            "WWW-Authenticate" "Basic realm=\"Login Required\"") ∧
    (∀ a, auth = some a → a.username = adminU → chk a.password = true →
      HttpResponse.statusOf (admin_view_reservations auth adminU chk sfr log).1 ≠ 401) := by
  refine ⟨admin_log_unchanged auth adminU chk sfr log, ?_, ?_, ?_⟩
  · intro h
    subst h
    rfl
  · intro a ha hbad
    subst ha
    have hcond : (a.username != adminU || !(chk a.password)) = true := by
      rcases hbad with h | h
      · simp [bne_iff_ne, h]
      · simp [h]
    rw [admin_eq_some, if_pos hcond]
  · intro a ha hu hp
    subst ha
    have hcond : (a.username != adminU || !(chk a.password)) = false := by
      simp [hu, hp]
    rw [admin_eq_some, if_neg (by simp [hcond])]
    cases sfr <;> simp [HttpResponse.statusOf]

/-- C8 witness: a concrete request without credentials gets the 401
challenge. -/
theorem C8_admin_auth_witness :
    (admin_view_reservations none "admin" (fun p => p == "hunter2")
        (Except.ok [headerRow]) (some [headerRow])).1
      = HttpResponse.challenge "Login required" 401
          "WWW-Authenticate" "Basic realm=\"Login Required\"" :=
  (C8_admin_auth none "admin" (fun p => p == "hunter2")
    (Except.ok [headerRow]) (some [headerRow])).2.1 rfl

/-- C9: a Stripe failure during checkout creation and an I/O failure while
serving the admin log are both surfaced as a 200-status plain-text body
holding exactly the raised error's description. -/
theorem C9_external_failures (raw : Option String)
    (jl : String → Except Unit JValue) (now : DateTime)
    (cm lp : Option String) (log : LogFile) (baseUrl e : String)
    (stripeCreate : CheckoutRequest → Except String String)
    (hal : booking_allowed raw jl (DateTime.timeOfDay now) = true)
    (hcm : isBlank cm = false) (hlp : isBlank lp = false)
    (hfail : stripeCreate (buildCheckoutRequest baseUrl (cm.getD "") (lp.getD ""))
      = Except.error e) :
    ((create_checkout_session raw jl now cm lp log stripeCreate baseUrl).1
      = HttpResponse.text e 200) ∧
    (∀ (a : AuthData) adminU chk (log2 : LogFile) (e2 : String),
      a.username = adminU → chk a.password = true →
      (admin_view_reservations (some a) adminU chk (Except.error e2) log2).1
        = HttpResponse.text e2 200 ∧
      (admin_view_reservations (some a) adminU chk (Except.error e2) log2).2 = log2) := by
  constructor
  · rw [create_main_branch raw jl now cm lp log stripeCreate baseUrl hal hcm hlp, hfail]
  · intro a adminU chk log2 e2 hu hp
    have hcond : (a.username != adminU || !(chk a.password)) = false := by
      simp [hu, hp]
    rw [admin_eq_some, if_neg (by simp [hcond])]
    exact ⟨rfl, rfl⟩

/-- C9 witness: a concrete Stripe failure and a concrete `send_file`
failure, both answered as 200 plain text with the raw description. -/
theorem C9_external_failures_witness :
    ((create_checkout_session none jlAllDay noonDT (some "Honda Civic") (some "ABC123")
        (some []) (fun _ => Except.error "No API key provided.")
        "http://localhost:5000").1
      = HttpResponse.text "No API key provided." 200) ∧
    (∀ (a : AuthData) adminU chk (log2 : LogFile) (e2 : String),
      a.username = adminU → chk a.password = true →
      (admin_view_reservations (some a) adminU chk (Except.error e2) log2).1
        = HttpResponse.text e2 200 ∧
      (admin_view_reservations (some a) adminU chk (Except.error e2) log2).2 = log2) :=
  C9_external_failures none jlAllDay noonDT (some "Honda Civic") (some "ABC123")
    (some []) "http://localhost:5000" "No API key provided."
    (fun _ => Except.error "No API key provided.")
    (by decide) (by decide) (by decide) rfl

/-- C10: the reservation row is appended before the Stripe call, so when the
Stripe call fails the handler answers with the error text while the log has
nevertheless gained the reservation row — the submission is not atomic with
respect to payment failure. -/
theorem C10_record_persists_on_payment_failure (raw : Option String)
    (jl : String → Except Unit JValue) (now : DateTime)
    (cm lp : Option String) (log : LogFile) (baseUrl e : String)
    (stripeCreate : CheckoutRequest → Except String String)
    (hal : booking_allowed raw jl (DateTime.timeOfDay now) = true)
    (hcm : isBlank cm = false) (hlp : isBlank lp = false)
    (hfail : stripeCreate (buildCheckoutRequest baseUrl (cm.getD "") (lp.getD ""))
      = Except.error e) :
    ((create_checkout_session raw jl now cm lp log stripeCreate baseUrl).1
      = HttpResponse.text e 200) ∧
    fileRows (create_checkout_session raw jl now cm lp log stripeCreate baseUrl).2
      = fileRows log ++ (if headerNeeded log then [headerRow] else []) ++
        [[cm.getD "", lp.getD "", strftimeTimestamp now]] := by
  constructor
  · rw [create_main_branch raw jl now cm lp log stripeCreate baseUrl hal hcm hlp, hfail]
  · rw [create_log_after_success raw jl now cm lp log stripeCreate baseUrl hal hcm hlp]
    rfl

/-- C10 witness: concrete failing Stripe call leaves the appended row in the
log. -/
theorem C10_record_persists_witness :
    ((create_checkout_session none jlAllDay noonDT (some "Honda Civic") (some "ABC123")
        (some [headerRow]) (fun _ => Except.error "stripe is down")
        "http://localhost:5000").1
      = HttpResponse.text "stripe is down" 200) ∧
    fileRows (create_checkout_session none jlAllDay noonDT (some "Honda Civic")
        (some "ABC123") (some [headerRow]) (fun _ => Except.error "stripe is down")
        "http://localhost:5000").2
      = fileRows (some [headerRow] : LogFile) ++
        (if headerNeeded (some [headerRow] : LogFile) then [headerRow] else []) ++
        [[(some "Honda Civic").getD "", (some "ABC123").getD "",
          strftimeTimestamp noonDT]] :=
  C10_record_persists_on_payment_failure none jlAllDay noonDT (some "Honda Civic")
    (some "ABC123") (some [headerRow]) "http://localhost:5000" "stripe is down"
    (fun _ => Except.error "stripe is down") (by decide) (by decide) (by decide) rfl

end ParkingNLT
